import Mathlib

/-!
Shallow embedding of `src/nml/output_base.py` (classes `OutputBase` and
`BinaryOutputBase`) and verification of its specification.

Python object mutation plus `assert`/`raise` is modelled by returning, for
every operation, the state of the object after the call together with an
optional error: a Python `assert` that fires raises an exception but leaves
all mutations already performed on the object in place, so the post-state is
returned even on failure.  Calls to the abstract hook methods
(`print_bytex`, `print_wordx`, `print_dwordx`, `newline`) are recorded as
trace events, since `BinaryOutputBase` only dispatches to them.
-/

namespace NML

/-- Errors raised by the code: each distinct `assert`/`raise` site is one
constructor.  `frameLengthMismatch` carries the expected and actual byte
counts, as the assertion message in `end_sprite` does. -/
inductive OutError where
  | preconditionViolation : OutError
  | rangeViolation : OutError
  | unsupportedWidth : OutError
  | frameLengthMismatch (expected actual : Int) : OutError
  deriving DecidableEq, Repr

/-- A call made to one of the abstract emission hooks of
`BinaryOutputBase` (`print_bytex`, `print_wordx`, `print_dwordx`,
`newline`), recorded with its argument. -/
inductive HookCall where
  | print_bytex (v : Int) : HookCall
  | print_wordx (v : Int) : HookCall
  | print_dwordx (v : Int) : HookCall
  | newline : HookCall
  deriving DecidableEq, Repr

/-- Number of bytes a hook call puts on the wire: a byte hook writes 1
byte, a word hook 2, a dword hook 4; `newline` is a separator, not data. -/
def HookCall.wireBytes : HookCall → Int
  | .print_bytex _ => 1
  | .print_wordx _ => 2
  | .print_dwordx _ => 4
  | .newline => 0

/-- Total bytes put on the wire by a trace of hook calls. -/
def wireBytesOf (calls : List HookCall) : Int :=
  (calls.map HookCall.wireBytes).sum

/-- The mutable state of a `BinaryOutputBase` instance that the framing
protocol touches: `in_sprite`, `expected_count`, `byte_count`, exactly as
set up in `BinaryOutputBase.__init__`. -/
structure BinaryOutputBase where
  in_sprite : Bool
  expected_count : Int
  byte_count : Int
  deriving DecidableEq, Repr

/-- State of a freshly constructed `BinaryOutputBase`:
`in_sprite = False`, `expected_count = 0`, `byte_count = 0`. -/
def BinaryOutputBase.init : BinaryOutputBase :=
  ⟨false, 0, 0⟩

/-- Result of a `prepare_*` call: the returned value (if the call did not
raise), the object state after the call, and the error raised (if any). -/
structure PrepResult where
  ret : Option Int
  state : BinaryOutputBase
  err : Option OutError
  deriving DecidableEq, Repr

/-- `BinaryOutputBase.prepare_byte`: asserts `in_sprite`; adds `0x100` to
`value` when `-0x80 <= value < 0`; asserts the result is in `[0, 0xFF]`;
increments `byte_count` by 1 and returns the value. -/
def prepare_byte (value : Int) (s : BinaryOutputBase) : PrepResult :=
  if s.in_sprite = false then ⟨none, s, some .preconditionViolation⟩
  else
    let value := if -0x80 ≤ value ∧ value < 0 then value + 0x100 else value
    if 0 ≤ value ∧ value ≤ 0xFF then
      ⟨some value, { s with byte_count := s.byte_count + 1 }, none⟩
    else ⟨none, s, some .rangeViolation⟩

/-- `BinaryOutputBase.prepare_word`: asserts `in_sprite`; adds `0x10000`
to `value` when `-0x8000 <= value < 0`; asserts the result is in
`[0, 0xFFFF]`; increments `byte_count` by 2 and returns the value. -/
def prepare_word (value : Int) (s : BinaryOutputBase) : PrepResult :=
  if s.in_sprite = false then ⟨none, s, some .preconditionViolation⟩
  else
    let value := if -0x8000 ≤ value ∧ value < 0 then value + 0x10000 else value
    if 0 ≤ value ∧ value ≤ 0xFFFF then
      ⟨some value, { s with byte_count := s.byte_count + 2 }, none⟩
    else ⟨none, s, some .rangeViolation⟩

/-- `BinaryOutputBase.prepare_dword`: asserts `in_sprite`; adds
`0x100000000` to `value` when `-0x80000000 <= value < 0`; asserts the
result is in `[0, 0xFFFFFFFF]`; increments `byte_count` by 4 and returns
the value. -/
def prepare_dword (value : Int) (s : BinaryOutputBase) : PrepResult :=
  if s.in_sprite = false then ⟨none, s, some .preconditionViolation⟩
  else
    let value := if -0x80000000 ≤ value ∧ value < 0 then value + 0x100000000 else value
    if 0 ≤ value ∧ value ≤ 0xFFFFFFFF then
      ⟨some value, { s with byte_count := s.byte_count + 4 }, none⟩
    else ⟨none, s, some .rangeViolation⟩

/-- Result of an operation that dispatches to hooks (`print_varx`,
`end_sprite`): the hook calls made, the state after the call, and the
error raised (if any). -/
structure TraceResult where
  calls : List HookCall
  state : BinaryOutputBase
  err : Option OutError
  deriving DecidableEq, Repr

/-- `BinaryOutputBase.print_varx`: size 1 dispatches to `print_bytex`,
size 2 to `print_wordx`, size 3 to `print_bytex(0xFF)` followed by
`print_wordx`, size 4 to `print_dwordx`; any other size hits
`assert False`.  The method reads or writes none of the framing fields. -/
def print_varx (value size : Int) (s : BinaryOutputBase) : TraceResult :=
  if size = 1 then ⟨[.print_bytex value], s, none⟩
  else if size = 2 then ⟨[.print_wordx value], s, none⟩
  else if size = 3 then ⟨[.print_bytex 0xFF, .print_wordx value], s, none⟩
  else if size = 4 then ⟨[.print_dwordx value], s, none⟩
  else ⟨[], s, some .unsupportedWidth⟩

/-- Result of `start_sprite`: the state after the call and the error
raised (if any); it makes no hook calls and returns nothing. -/
structure StartResult where
  state : BinaryOutputBase
  err : Option OutError
  deriving DecidableEq, Repr

/-- `BinaryOutputBase.start_sprite`: asserts `not in_sprite`, then sets
`in_sprite = True`, `expected_count = expected_size`, `byte_count = 0`. -/
def start_sprite (expected_size : Int) (s : BinaryOutputBase) : StartResult :=
  if s.in_sprite = true then ⟨s, some .preconditionViolation⟩
  else ⟨⟨true, expected_size, 0⟩, none⟩

/-- `BinaryOutputBase.end_sprite`: asserts `in_sprite`, sets
`in_sprite = False`, calls `newline()`, then asserts
`expected_count == byte_count`, raising with both counts on mismatch.
The flag reset and the `newline` call happen before the count check, so
they are visible even when the final assertion fires. -/
def end_sprite (s : BinaryOutputBase) : TraceResult :=
  if s.in_sprite = false then ⟨[], s, some .preconditionViolation⟩
  else
    let s' : BinaryOutputBase := { s with in_sprite := false }
    if s'.expected_count = s'.byte_count then ⟨[.newline], s', none⟩
    else ⟨[.newline], s', some (.frameLengthMismatch s'.expected_count s'.byte_count)⟩

/-- `BinaryOutputBase.pre_close`: asserts `not in_sprite`; mutates
nothing. -/
def pre_close (s : BinaryOutputBase) : Option OutError :=
  if s.in_sprite = true then some .preconditionViolation else none

/-- One normalization call of a sprite-emission sequence, with its
argument. -/
inductive PrepCall where
  | byte (v : Int) : PrepCall
  | word (v : Int) : PrepCall
  | dword (v : Int) : PrepCall
  deriving DecidableEq, Repr

/-- The declared field width of a normalization call: 1, 2 or 4 bytes. -/
def PrepCall.width : PrepCall → Int
  | .byte _ => 1
  | .word _ => 2
  | .dword _ => 4

/-- Sum of the declared widths of a sequence of normalization calls. -/
def widthSum : List PrepCall → Int
  | [] => 0
  | c :: cs => c.width + widthSum cs

/-- Run one normalization call against the state. -/
def runPrep : PrepCall → BinaryOutputBase → PrepResult
  | .byte v, s => prepare_byte v s
  | .word v, s => prepare_word v s
  | .dword v, s => prepare_dword v s

/-- Run a sequence of normalization calls, stopping at the first error;
the Bool records whether every call succeeded. -/
def runPreps : List PrepCall → BinaryOutputBase → BinaryOutputBase × Bool
  | [], s => (s, true)
  | c :: cs, s =>
    let r := runPrep c s
    match r.err with
    | none => runPreps cs r.state
    | some _ => (r.state, false)

/-- The mutable state of an `OutputBase` instance: the file name and the
in-memory staging buffer (`None` before `open` and after the buffer is
closed). -/
structure OutputBase where
  filename : String
  file : Option String
  deriving DecidableEq, Repr

/-- `OutputBase.__init__`: stores the file name; `file` is `None`. -/
def OutputBase.init (filename : String) : OutputBase :=
  ⟨filename, none⟩

/-- `OutputBase.open`: allocates a fresh empty in-memory staging buffer
(`StringIO.StringIO()`). -/
def OutputBase.open_mem (o : OutputBase) : OutputBase :=
  { o with file := some "" }

/-- One step of the `OutputBase.close` sequence, in the order the code
performs them: the `pre_close` hook, the `open_file` call producing the
real sink, the bulk write of the staged contents into the real sink, the
close of the real sink, and the close of the staging buffer. -/
inductive CloseEvent where
  | hook_pre_close : CloseEvent
  | hook_open_file : CloseEvent
  | real_write (contents : String) : CloseEvent
  | real_close : CloseEvent
  | file_close : CloseEvent
  deriving DecidableEq, Repr

/-- `OutputBase.close`: calls `pre_close()`, then `open_file()`, writes
`self.file.getvalue()` into the real file, closes the real file, closes
the staging buffer.  Returns the ordered trace of these steps and the
state afterwards; `none` when no staging buffer is open (the Python code
would fail on `self.file.getvalue()`). -/
def OutputBase.close (o : OutputBase) : Option (List CloseEvent × OutputBase) :=
  match o.file with
  | none => none
  | some buf =>
    some ([.hook_pre_close, .hook_open_file, .real_write buf, .real_close, .file_close],
      { o with file := none })

/-- `OutputBase.skip_sprite_checks`: always `False`. -/
def skip_sprite_checks (_o : OutputBase) : Bool :=
  false

/-! ## Characterization lemmas for the normalization routines -/

/-- Closed-form characterization of `prepare_byte`: the adjust-then-check
of the code succeeds exactly on `[-128, 255]` and then returns the
unsigned representative. -/
theorem prepare_byte_eq (v : Int) (s : BinaryOutputBase) :
    prepare_byte v s =
      if s.in_sprite = false then ⟨none, s, some .preconditionViolation⟩
      else if -128 ≤ v ∧ v ≤ 255 then
        ⟨some (if v < 0 then v + 256 else v),
          { s with byte_count := s.byte_count + 1 }, none⟩
      else ⟨none, s, some .rangeViolation⟩ := by
  unfold prepare_byte
  split_ifs <;> first | rfl | omega | simp_all <;> omega

/-- Closed-form characterization of `prepare_word`: success exactly on
`[-32768, 65535]`, returning the unsigned representative. -/
theorem prepare_word_eq (v : Int) (s : BinaryOutputBase) :
    prepare_word v s =
      if s.in_sprite = false then ⟨none, s, some .preconditionViolation⟩
      else if -32768 ≤ v ∧ v ≤ 65535 then
        ⟨some (if v < 0 then v + 65536 else v),
          { s with byte_count := s.byte_count + 2 }, none⟩
      else ⟨none, s, some .rangeViolation⟩ := by
  unfold prepare_word
  split_ifs <;> first | rfl | omega | simp_all <;> omega

/-- Closed-form characterization of `prepare_dword`: success exactly on
`[-2^31, 2^32 - 1]`, returning the unsigned representative. -/
theorem prepare_dword_eq (v : Int) (s : BinaryOutputBase) :
    prepare_dword v s =
      if s.in_sprite = false then ⟨none, s, some .preconditionViolation⟩
      else if -2147483648 ≤ v ∧ v ≤ 4294967295 then
        ⟨some (if v < 0 then v + 4294967296 else v),
          { s with byte_count := s.byte_count + 4 }, none⟩
      else ⟨none, s, some .rangeViolation⟩ := by
  unfold prepare_dword
  split_ifs <;> first | rfl | omega | simp_all <;> omega

/-! ## Claim theorems -/

/-- Claim C2: with a frame open, for every `v` with `-128 ≤ v ≤ 255`,
`prepare_byte` returns `v + 256` when `v` is in `[-128, -1]` and `v`
otherwise, the result lies in `[0, 255]`, `byte_count` grows by exactly 1,
the call raises nothing, and for `128 ≤ v ≤ 255` the idempotence equation
`prepare_byte v = prepare_byte (v - 256)` holds on the returned value. -/
theorem byte_normalization (v : Int) (s : BinaryOutputBase)
    (hin : s.in_sprite = true) (hlo : -128 ≤ v) (hhi : v ≤ 255) :
    (prepare_byte v s).ret = some (if -128 ≤ v ∧ v ≤ -1 then v + 256 else v) ∧
    (∀ r, (prepare_byte v s).ret = some r → 0 ≤ r ∧ r ≤ 255) ∧
    (prepare_byte v s).state.byte_count = s.byte_count + 1 ∧
    (prepare_byte v s).err = none ∧
    (128 ≤ v → (prepare_byte v s).ret = (prepare_byte (v - 256) s).ret) := by
  simp only [prepare_byte_eq, hin]
  split_ifs <;> simp_all <;> omega

/-- Claim C2 witness: concrete instance at `v = 200` in a fresh open
frame, checking the wraparound value, the ranges and the counter. -/
theorem byte_normalization_witness :
    (-128 ≤ (200 : Int) ∧ (200 : Int) ≤ 255) ∧
    (prepare_byte 200 ⟨true, 4, 0⟩).ret = some 200 ∧
    (prepare_byte 200 ⟨true, 4, 0⟩).state.byte_count = 1 ∧
    (prepare_byte 200 ⟨true, 4, 0⟩).err = none ∧
    (prepare_byte 200 ⟨true, 4, 0⟩).ret = (prepare_byte (200 - 256) ⟨true, 4, 0⟩).ret := by
  have h := byte_normalization 200 ⟨true, 4, 0⟩ rfl (by decide) (by decide)
  refine ⟨by decide, ?_, ?_, ?_, ?_⟩
  · rw [h.1]; decide
  · rw [h.2.2.1]; rfl
  · exact h.2.2.2.1
  · exact h.2.2.2.2 (by decide)

/-- Claim C3: with a frame open, `prepare_byte` raises RangeViolation
exactly for `v` outside `[-128, 255]`, `prepare_word` exactly outside
`[-32768, 65535]` and `prepare_dword` exactly outside
`[-2^31, 2^32 - 1]`; each call succeeds on every value inside its
range. -/
theorem range_violation (v : Int) (s : BinaryOutputBase)
    (hin : s.in_sprite = true) :
    ((prepare_byte v s).err = some .rangeViolation ↔ (v < -128 ∨ 255 < v)) ∧
    ((prepare_byte v s).err = none ↔ (-128 ≤ v ∧ v ≤ 255)) ∧
    ((prepare_word v s).err = some .rangeViolation ↔ (v < -32768 ∨ 65535 < v)) ∧
    ((prepare_word v s).err = none ↔ (-32768 ≤ v ∧ v ≤ 65535)) ∧
    ((prepare_dword v s).err = some .rangeViolation ↔ (v < -(2 ^ 31) ∨ 2 ^ 32 - 1 < v)) ∧
    ((prepare_dword v s).err = none ↔ (-(2 ^ 31) ≤ v ∧ v ≤ 2 ^ 32 - 1)) := by
  simp only [prepare_byte_eq, prepare_word_eq, prepare_dword_eq, hin]
  norm_num
  split_ifs <;> simp_all <;> omega

/-- Claim C3 witness: concrete boundary checks at `v = 256` and
`v = -129` for bytes, plus in-range successes for all three widths. -/
theorem range_violation_witness :
    (prepare_byte 256 ⟨true, 0, 0⟩).err = some .rangeViolation ∧
    (prepare_byte (-129) ⟨true, 0, 0⟩).err = some .rangeViolation ∧
    (prepare_byte 255 ⟨true, 0, 0⟩).err = none ∧
    (prepare_word 65535 ⟨true, 0, 0⟩).err = none ∧
    (prepare_word 65536 ⟨true, 0, 0⟩).err = some .rangeViolation ∧
    (prepare_dword 4294967295 ⟨true, 0, 0⟩).err = none ∧
    (prepare_dword 4294967296 ⟨true, 0, 0⟩).err = some .rangeViolation := by
  refine ⟨?_, ?_, ?_, ?_, ?_, ?_, ?_⟩
  · exact ((range_violation 256 ⟨true, 0, 0⟩ rfl).1).mpr (by norm_num)
  · exact ((range_violation (-129) ⟨true, 0, 0⟩ rfl).1).mpr (by norm_num)
  · exact ((range_violation 255 ⟨true, 0, 0⟩ rfl).2.1).mpr (by norm_num)
  · exact ((range_violation 65535 ⟨true, 0, 0⟩ rfl).2.2.2.1).mpr (by norm_num)
  · exact ((range_violation 65536 ⟨true, 0, 0⟩ rfl).2.2.1).mpr (by norm_num)
  · exact ((range_violation 4294967295 ⟨true, 0, 0⟩ rfl).2.2.2.2.2).mpr (by norm_num)
  · exact ((range_violation 4294967296 ⟨true, 0, 0⟩ rfl).2.2.2.2.1).mpr (by norm_num)

/-- Claim C6: with no frame open, every normalization call raises a
precondition violation, whatever the counters hold and whatever the
value is. -/
theorem normalization_precondition (v : Int) (s : BinaryOutputBase)
    (h : s.in_sprite = false) :
    (prepare_byte v s).err = some .preconditionViolation ∧
    (prepare_word v s).err = some .preconditionViolation ∧
    (prepare_dword v s).err = some .preconditionViolation := by
  simp [prepare_byte_eq, prepare_word_eq, prepare_dword_eq, h]

/-- Claim C6 witness: concrete instance with arbitrary nonzero
counters. -/
theorem normalization_precondition_witness :
    (prepare_byte 7 ⟨false, 9, 3⟩).err = some .preconditionViolation ∧
    (prepare_word 7 ⟨false, 9, 3⟩).err = some .preconditionViolation ∧
    (prepare_dword 7 ⟨false, 9, 3⟩).err = some .preconditionViolation :=
  normalization_precondition 7 ⟨false, 9, 3⟩ rfl

/-- Claim C10: a failing normalization call leaves the state exactly as
it was, and a successful one changes nothing but `byte_count`, which it
increments by the declared width only after all assertions passed. -/
theorem normalization_failure_atomic (v : Int) (s : BinaryOutputBase) :
    ((prepare_byte v s).err ≠ none → (prepare_byte v s).state = s) ∧
    ((prepare_word v s).err ≠ none → (prepare_word v s).state = s) ∧
    ((prepare_dword v s).err ≠ none → (prepare_dword v s).state = s) ∧
    ((prepare_byte v s).err = none →
      (prepare_byte v s).state = { s with byte_count := s.byte_count + 1 }) ∧
    ((prepare_word v s).err = none →
      (prepare_word v s).state = { s with byte_count := s.byte_count + 2 }) ∧
    ((prepare_dword v s).err = none →
      (prepare_dword v s).state = { s with byte_count := s.byte_count + 4 }) := by
  simp only [prepare_byte_eq, prepare_word_eq, prepare_dword_eq]
  split_ifs <;> simp_all

/-- Claim C10 witness: both concrete failures (precondition and range)
leave the state untouched. -/
theorem normalization_failure_atomic_witness :
    (prepare_byte 300 ⟨true, 5, 2⟩).state = ⟨true, 5, 2⟩ ∧
    (prepare_word 1 ⟨false, 5, 2⟩).state = ⟨false, 5, 2⟩ :=
  ⟨(normalization_failure_atomic 300 ⟨true, 5, 2⟩).1 (by decide),
   (normalization_failure_atomic 1 ⟨false, 5, 2⟩).2.1 (by decide)⟩

/-- Claim C4: `print_varx` dispatches size 1 to the byte hook, size 2 to
the word hook, size 4 to the dword hook, and size 3 to exactly three wire
bytes: a sentinel byte `0xFF` followed by `v` as a two-byte word, in that
order; every size outside `\x7b1, 2, 3, 4\x7d` is an unsupported-width
error. -/
theorem varx_dispatch (v size : Int) (s : BinaryOutputBase) :
    print_varx v 1 s = ⟨[.print_bytex v], s, none⟩ ∧
    print_varx v 2 s = ⟨[.print_wordx v], s, none⟩ ∧
    print_varx v 3 s = ⟨[.print_bytex 255, .print_wordx v], s, none⟩ ∧
    wireBytesOf (print_varx v 3 s).calls = 3 ∧
    print_varx v 4 s = ⟨[.print_dwordx v], s, none⟩ ∧
    (size ≠ 1 → size ≠ 2 → size ≠ 3 → size ≠ 4 →
      print_varx v size s = ⟨[], s, some .unsupportedWidth⟩) := by
  refine ⟨rfl, rfl, rfl, rfl, rfl, fun h1 h2 h3 h4 => ?_⟩
  simp [print_varx, h1, h2, h3, h4]

/-- Claim C4 witness: concrete dispatches at `v = 300`, including the
unsupported size 5. -/
theorem varx_dispatch_witness :
    print_varx 300 3 ⟨true, 3, 0⟩ = ⟨[.print_bytex 255, .print_wordx 300], ⟨true, 3, 0⟩, none⟩ ∧
    wireBytesOf (print_varx 300 3 ⟨true, 3, 0⟩).calls = 3 ∧
    print_varx 300 5 ⟨true, 3, 0⟩ = ⟨[], ⟨true, 3, 0⟩, some .unsupportedWidth⟩ := by
  have h := varx_dispatch 300 5 ⟨true, 3, 0⟩
  exact ⟨h.2.2.1, h.2.2.2.1, h.2.2.2.2.2 (by decide) (by decide) (by decide) (by decide)⟩

/-- Claim C5: at most one frame may be open: `start_sprite` on a state
with `in_sprite` true raises a precondition violation and changes
nothing, so a second `start_sprite` after a successful one fails, and
`pre_close` (the hook `close` runs first) on an open frame is a
precondition failure as well. -/
theorem single_frame_invariant (s s₀ : BinaryOutputBase)
    (h : s.in_sprite = true) (h₀ : s₀.in_sprite = false) (n m k : Int) :
    (start_sprite n s).err = some .preconditionViolation ∧
    (start_sprite n s).state = s ∧
    (start_sprite m (start_sprite k s₀).state).err = some .preconditionViolation ∧
    pre_close s = some .preconditionViolation := by
  simp [start_sprite, pre_close, h, h₀]

/-- Claim C5 witness: a fresh writer, `start_sprite 4` then
`start_sprite 2`, fails; `pre_close` inside an open frame fails. -/
theorem single_frame_invariant_witness :
    (start_sprite 2 (start_sprite 4 BinaryOutputBase.init).state).err =
      some .preconditionViolation ∧
    pre_close ⟨true, 4, 0⟩ = some .preconditionViolation :=
  ⟨(single_frame_invariant ⟨true, 1, 1⟩ BinaryOutputBase.init rfl rfl 0 2 4).2.2.1,
   (single_frame_invariant ⟨true, 4, 0⟩ BinaryOutputBase.init rfl rfl 0 2 4).2.2.2⟩

/-- Claim C7 counterexample: `print_varx` contains no `in_sprite` check:
called with size 1 on a state with no frame open it raises nothing, in
particular no precondition violation. -/
theorem varx_no_precondition_cex :
    (print_varx 5 1 ⟨false, 0, 0⟩).err = none ∧
    (print_varx 5 1 ⟨false, 0, 0⟩).err ≠ some .preconditionViolation := by
  decide

/-- Claim C7 amended: `print_varx` with any size in `\x7b1, 2, 3, 4\x7d`
while no frame is open does not fail: it performs no precondition check
and merely dispatches to the abstract hooks. -/
theorem varx_no_precondition (v size : Int) (s : BinaryOutputBase)
    (_h : s.in_sprite = false)
    (hsize : size = 1 ∨ size = 2 ∨ size = 3 ∨ size = 4) :
    (print_varx v size s).err = none := by
  rcases hsize with rfl | rfl | rfl | rfl <;> rfl

/-- Claim C7 amended witness: size 2 with no frame open succeeds. -/
theorem varx_no_precondition_witness :
    (print_varx 9 2 ⟨false, 7, 7⟩).err = none :=
  varx_no_precondition 9 2 ⟨false, 7, 7⟩ rfl (by norm_num)

/-- Claim C9: `print_varx` with any size in `\x7b1, 2, 3, 4\x7d` leaves
`in_sprite`, `expected_count` and `byte_count` unchanged: it only records
hook calls and never runs the counting `prepare_*` routines. -/
theorem varx_preserves_state (v size : Int) (s : BinaryOutputBase)
    (hsize : size = 1 ∨ size = 2 ∨ size = 3 ∨ size = 4) :
    (print_varx v size s).state = s ∧
    (print_varx v size s).state.in_sprite = s.in_sprite ∧
    (print_varx v size s).state.expected_count = s.expected_count ∧
    (print_varx v size s).state.byte_count = s.byte_count := by
  rcases hsize with rfl | rfl | rfl | rfl <;> exact ⟨rfl, rfl, rfl, rfl⟩

/-- Claim C9 witness: size 3 in an open frame leaves the counters
alone. -/
theorem varx_preserves_state_witness :
    (print_varx 300 3 ⟨true, 9, 4⟩).state = ⟨true, 9, 4⟩ :=
  (varx_preserves_state 300 3 ⟨true, 9, 4⟩ (by norm_num)).1

/-- Claim C8: `close` performs, in order: the `pre_close` hook, one single
`open_file` call, the bulk write of the whole staged buffer into the real
sink, the close of the real sink, and the release of the staging buffer;
`open` immediately followed by `close` hands the real sink the empty
staged contents (zero bytes). -/
theorem close_sequence (o : OutputBase) (buf : String) (h : o.file = some buf) :
    o.close = some ([.hook_pre_close, .hook_open_file, .real_write buf,
      .real_close, .file_close], { o with file := none }) ∧
    (o.close.map fun p => p.1.count CloseEvent.hook_open_file) = some 1 ∧
    (OutputBase.open_mem o).close = some ([.hook_pre_close, .hook_open_file,
      .real_write "", .real_close, .file_close], { o with file := none }) ∧
    "".length = 0 := by
  refine ⟨?_, ?_, ?_, rfl⟩
  · simp [OutputBase.close, h]
  · simp [OutputBase.close, h, List.count_cons]
  · simp [OutputBase.close, OutputBase.open_mem]

/-- Claim C8 witness: a concrete writer opened and closed with no
writes stages zero bytes into the real sink. -/
theorem close_sequence_witness :
    (OutputBase.open_mem (OutputBase.init "data.grf")).close =
      some ([.hook_pre_close, .hook_open_file, .real_write "", .real_close,
        .file_close], OutputBase.init "data.grf") :=
  (close_sequence (OutputBase.open_mem (OutputBase.init "data.grf")) "" rfl).1

/-! ## Frame accounting -/

/-- Inside an open frame, one normalization call either fails and leaves
the state untouched, or succeeds and adds exactly its declared width to
`byte_count`, changing nothing else. -/
theorem runPrep_step (c : PrepCall) (s : BinaryOutputBase)
    (h : s.in_sprite = true) :
    ((runPrep c s).err ≠ none ∧ (runPrep c s).state = s) ∨
    ((runPrep c s).err = none ∧
      (runPrep c s).state = { s with byte_count := s.byte_count + c.width }) := by
  cases c <;>
    simp only [runPrep, PrepCall.width, prepare_byte_eq, prepare_word_eq,
      prepare_dword_eq, h] <;>
    split_ifs <;> simp_all

/-- A fully successful sequence of normalization calls in an open frame
keeps `in_sprite` and `expected_count` and adds the sum of the declared
widths to `byte_count`. -/
theorem runPreps_ok (cs : List PrepCall) (s : BinaryOutputBase)
    (h : s.in_sprite = true) (hok : (runPreps cs s).2 = true) :
    (runPreps cs s).1 = { s with byte_count := s.byte_count + widthSum cs } := by
  induction cs generalizing s with
  | nil =>
    simp only [runPreps, widthSum]
    cases s
    simp
  | cons c cs ih =>
    rcases runPrep_step c s h with ⟨herr, _⟩ | ⟨herr, hst⟩
    · exfalso
      simp only [runPreps] at hok
      rcases he : (runPrep c s).err with _ | e
      · exact herr he
      · rw [he] at hok
        simp at hok
    · simp only [runPreps, herr] at hok ⊢
      rw [hst] at hok ⊢
      have hin : ({ s with byte_count := s.byte_count + c.width } :
          BinaryOutputBase).in_sprite = true := h
      rw [ih _ hin hok]
      cases s
      simp only [widthSum]
      congr 1
      omega

/-- Claim C1: for `N ≥ 0`, `start_sprite N` on a closed writer succeeds,
and after any all-successful sequence of normalization calls,
`end_sprite` first clears `in_sprite` and emits a trailing line break,
then succeeds exactly when the declared widths sum to `N`; on any other
sum it raises a frame-length mismatch carrying the expected count `N` and
the actual count. -/
theorem frame_accounting (N : Int) (_hN : 0 ≤ N) (cs : List PrepCall)
    (s₀ : BinaryOutputBase) (h₀ : s₀.in_sprite = false)
    (hok : (runPreps cs (start_sprite N s₀).state).2 = true) :
    (start_sprite N s₀).err = none ∧
    (end_sprite ((runPreps cs (start_sprite N s₀).state).1)).calls = [.newline] ∧
    (end_sprite ((runPreps cs (start_sprite N s₀).state).1)).state.in_sprite = false ∧
    (widthSum cs = N →
      (end_sprite ((runPreps cs (start_sprite N s₀).state).1)).err = none) ∧
    (widthSum cs ≠ N →
      (end_sprite ((runPreps cs (start_sprite N s₀).state).1)).err =
        some (.frameLengthMismatch N (widthSum cs))) := by
  have hstart : start_sprite N s₀ = ⟨⟨true, N, 0⟩, none⟩ := by
    simp [start_sprite, h₀]
  rw [hstart] at hok ⊢
  have hrun := runPreps_ok cs ⟨true, N, 0⟩ rfl hok
  simp only [StartResult.state] at hrun ⊢
  rw [hrun]
  simp only [end_sprite, zero_add]
  refine ⟨by trivial, ?_, ?_, ?_, ?_⟩ <;> split_ifs <;> simp_all <;> omega

/-- Claim C1 witness: a frame of declared size 3 filled by a byte and a
word closes cleanly; a frame of declared size 5 filled by a dword closes
with a mismatch reporting expected 5, actual 4. -/
theorem frame_accounting_witness :
    (end_sprite ((runPreps [.byte 5, .word 300]
        (start_sprite 3 BinaryOutputBase.init).state).1)).err = none ∧
    (end_sprite ((runPreps [.dword 77]
        (start_sprite 5 BinaryOutputBase.init).state).1)).err =
      some (.frameLengthMismatch 5 4) := by
  constructor
  · exact (frame_accounting 3 (by norm_num) [.byte 5, .word 300]
      BinaryOutputBase.init rfl (by decide)).2.2.2.1 (by decide)
  · have h := (frame_accounting 5 (by norm_num) [.dword 77]
      BinaryOutputBase.init rfl (by decide)).2.2.2.2 (by decide)
    simpa using h

end NML
